import Mathlib

/-!
Verification of the cloudflare-controller-rs reconciliation engine.

The tunnel reconciler (src/src/operator/tunnel_controller.rs) is embedded as a
pure function from the tunnel object and an environment of external-call
outcomes to a pair of (the list of side effects issued, the reconcile result).
The ingress controller (src/crates/ingress-controller/src/controller.rs) is
embedded the same way, with panics (unwrap of None) made explicit.
-/

deriving instance DecidableEq for Except

namespace CfOp

/-- Kubernetes client errors (kube::Error). `api code` is kube::Error::Api
carrying an ErrorResponse with an HTTP status code; `other` covers every
non-Api variant (transport, serialization, ...). -/
inductive KubeError where
  | api (code : Nat)
  | other
deriving DecidableEq, Repr

/-- Cloudflare API failures (cloudflare::framework::response::ApiFailure).
`error status` is ApiFailure::Error(StatusCode, errors) — the error list is
irrelevant to control flow and is not modelled; `invalid` covers
ApiFailure::Invalid (an unparseable response). -/
inductive ApiFailure where
  | error (status : Nat)
  | invalid
deriving DecidableEq, Repr

/-- Reconciliation errors of the operator variant
(src/src/controllers/tunnel.rs `enum Error`, identical in shape to the one
used by src/src/operator/tunnel_controller.rs). -/
inductive Error where
  | kubeError (e : KubeError)
  | cloudflareApiFailure (e : ApiFailure)
  | missingNamespace (resource : String)
  | missingCredentials (name : String)
deriving DecidableEq, Repr

/-- kube::runtime::controller::Action — either requeue after a duration in
seconds, or wait for the next change to the object. -/
inductive Action where
  | requeue (secs : Nat)
  | awaitChange
deriving DecidableEq, Repr

/-- Embeds `const RECONCILE_TIMER: u64 = 60` (tunnel_controller.rs). -/
def RECONCILE_TIMER : Nat := 60

/-- Embeds `StatusCode::NOT_FOUND` of the http crate. -/
def NOT_FOUND : Nat := 404

/-- Embeds `StatusCode::FORBIDDEN` of the http crate. -/
def FORBIDDEN : Nat := 403

/-- Embeds `const FINALIZER_NAME` (src/src/operator/crd/tunnel.rs). -/
def FINALIZER_NAME : String := "tunnel.cloudflare.ar2ro.io/finalizer"

/-- The object metadata fields the controller reads
(kube ObjectMeta restricted to what tunnel_controller.rs consumes).
`ns` embeds the `namespace` field (a Lean keyword). `deletionTimestamp`
only matters through presence, the timestamp text is kept opaque. -/
structure ObjectMeta where
  name : Option String
  ns : Option String
  deletionTimestamp : Option String
  finalizers : Option (List String)
deriving DecidableEq, Repr

/-- Embeds `struct TunnelCrd` (src/src/operator/crd/tunnel.rs): uuid, replicas,
credentials, image, tunnel_secret (tags are never read by the reconciler). -/
structure TunnelSpec where
  uuid : Option String
  replicas : Int
  credentials : String
  image : Option String
  tunnelSecret : Option String
deriving DecidableEq, Repr

/-- A Tunnel custom resource object: metadata plus spec. -/
structure Tunnel where
  metadata : ObjectMeta
  spec : TunnelSpec
deriving DecidableEq, Repr

/-- Embeds `enum TunnelAction` (tunnel_controller.rs). -/
inductive TunnelAction where
  | delete
  | create
  | sync
deriving DecidableEq, Repr

/-- Embeds `impl From<&Arc<Tunnel>> for TunnelAction` (tunnel_controller.rs lines
27-37): Delete when deletion_timestamp is some, Create when the finalizers
field is none, Sync otherwise. -/
def TunnelAction.fromTunnel (t : Tunnel) : TunnelAction :=
  if t.metadata.deletionTimestamp.isSome then
    TunnelAction.delete
  else if t.metadata.finalizers.isNone then
    TunnelAction.create
  else
    TunnelAction.sync

/-- Modelled from the spec: the three-state rule of spec.md §4.3 as written,
using membership of the lifecycle finalizer rather than mere presence of the
finalizers field. Used only to compare against `TunnelAction.fromTunnel`. -/
def specTunnelAction (t : Tunnel) : TunnelAction :=
  if t.metadata.deletionTimestamp.isSome then
    TunnelAction.delete
  else if (t.metadata.finalizers.getD []).contains FINALIZER_NAME then
    TunnelAction.sync
  else
    TunnelAction.create

/-- The remote tunnel object returned by create_tunnel/get_tunnel; only the
id is read by the reconciler. -/
structure TunnelInfo where
  id : String
deriving DecidableEq, Repr

/-- Outcomes of every external call a single reconcile can make, fixed up
front: the reconcile is a pure function of the object and this record. -/
structure Env where
  getOptCredentials : Except KubeError (Option Unit)
  getTunnel : Except ApiFailure TunnelInfo
  createTunnel : Except ApiFailure TunnelInfo
  patchUuid : Except KubeError Unit
  getTunnelToken : Except ApiFailure String
  createSecret : Except KubeError Unit
  createDeployment : Except KubeError Unit
  addFinalizer : Except KubeError Unit
  deleteTunnel : Except ApiFailure Unit
  deleteDeploymentApi : Except KubeError Unit
  deleteSecretApi : Except KubeError Unit
  removeFinalizer : Except KubeError Unit
deriving DecidableEq, Repr

/-- The externally visible calls a reconcile issues, in order. -/
inductive Effect where
  | getCredentials (name : String)
  | cfCreateTunnel (name : String)
  | cfGetTunnel (id : String)
  | patchTunnelUuid (id : String)
  | cfGetTunnelToken (id : String)
  | createSecret (name ns : String)
  | createDeployment (name ns : String)
  | addFinalizer (name ns : String)
  | cfDeleteTunnel (id : String)
  | deleteDeployment (name ns : String)
  | deleteSecret (name ns : String)
  | removeFinalizer (name ns : String)
deriving DecidableEq, Repr

/-- Embeds `deployment::delete` (src/src/operator/resources/deployment.rs lines
107-120): issue the cluster delete; on kube::Error::Api with code in the
range `400..=403` return Ok, otherwise propagate the error. -/
def deployment.delete (env : Env) : Except KubeError Unit :=
  match env.deleteDeploymentApi with
  | Except.ok _ => Except.ok ()
  | Except.error err =>
    match err with
    | KubeError.api code =>
      if 400 ≤ code ∧ code ≤ 403 then Except.ok () else Except.error (KubeError.api code)
    | KubeError.other => Except.error KubeError.other

/-- Embeds `secret::delete` (src/src/resources/secret.rs lines 33-38): issue the
cluster delete and propagate every error unchanged. -/
def secret.delete (env : Env) : Except KubeError Unit :=
  match env.deleteSecretApi with
  | Except.ok _ => Except.ok ()
  | Except.error err => Except.error err

/-- The tail of `create_tunnel` (tunnel_controller.rs lines 99-157) after the
remote tunnel object is in hand: fetch the tunnel token, create the owned
secret then the owned deployment, add the finalizer, and requeue at
RECONCILE_TIMER; any failure returns the error immediately. `eff` is the
trace accumulated by the head of the function. -/
def create_tunnel_rest (env : Env) (name ns : String) (eff : List Effect)
    (tunnel : TunnelInfo) : List Effect × Except Error Action :=
  match env.getTunnelToken with
  | Except.error err =>
    (eff ++ [Effect.cfGetTunnelToken tunnel.id], Except.error (Error.cloudflareApiFailure err))
  | Except.ok _token =>
    match env.createSecret with
    | Except.error err =>
      (eff ++ [Effect.cfGetTunnelToken tunnel.id, Effect.createSecret name ns],
        Except.error (Error.kubeError err))
    | Except.ok _ =>
      match env.createDeployment with
      | Except.error err =>
        (eff ++ [Effect.cfGetTunnelToken tunnel.id, Effect.createSecret name ns,
          Effect.createDeployment name ns], Except.error (Error.kubeError err))
      | Except.ok _ =>
        match env.addFinalizer with
        | Except.ok _ =>
          (eff ++ [Effect.cfGetTunnelToken tunnel.id, Effect.createSecret name ns,
            Effect.createDeployment name ns, Effect.addFinalizer name ns],
            Except.ok (Action.requeue RECONCILE_TIMER))
        | Except.error err =>
          (eff ++ [Effect.cfGetTunnelToken tunnel.id, Effect.createSecret name ns,
            Effect.createDeployment name ns, Effect.addFinalizer name ns],
            Except.error (Error.kubeError err))

/-- Embeds `create_tunnel` (tunnel_controller.rs lines 40-157): resolve credentials
(absent credentials is the distinguished MissingCredentials error); if
spec.uuid is set fetch the remote tunnel by id, else create it remotely and
merge-patch the object with the uuid filled in; then continue with
`create_tunnel_rest`. -/
def create_tunnel (generator : Tunnel) (env : Env) (name ns : String) :
    List Effect × Except Error Action :=
  match env.getOptCredentials with
  | Except.error err =>
    ([Effect.getCredentials generator.spec.credentials], Except.error (Error.kubeError err))
  | Except.ok none =>
    ([Effect.getCredentials generator.spec.credentials],
      Except.error (Error.missingCredentials generator.spec.credentials))
  | Except.ok (some _) =>
    match generator.spec.uuid with
    | some uuid =>
      match env.getTunnel with
      | Except.error err =>
        ([Effect.getCredentials generator.spec.credentials, Effect.cfGetTunnel uuid],
          Except.error (Error.cloudflareApiFailure err))
      | Except.ok tunnel =>
        create_tunnel_rest env name ns
          [Effect.getCredentials generator.spec.credentials, Effect.cfGetTunnel uuid] tunnel
    | none =>
      match env.createTunnel with
      | Except.error err =>
        ([Effect.getCredentials generator.spec.credentials, Effect.cfCreateTunnel name],
          Except.error (Error.cloudflareApiFailure err))
      | Except.ok tunnel =>
        match env.patchUuid with
        | Except.error err =>
          ([Effect.getCredentials generator.spec.credentials, Effect.cfCreateTunnel name,
            Effect.patchTunnelUuid tunnel.id], Except.error (Error.kubeError err))
        | Except.ok _ =>
          create_tunnel_rest env name ns
            [Effect.getCredentials generator.spec.credentials, Effect.cfCreateTunnel name,
              Effect.patchTunnelUuid tunnel.id] tunnel

/-- The remote-delete block of `delete_tunnel` (tunnel_controller.rs lines
166-200), entered only when spec.uuid is set: look up the credentials; if the
lookup errors propagate it; if the credentials object is absent skip the
remote call silently; otherwise call the remote delete and swallow
ApiFailure::Error with status NOT_FOUND or FORBIDDEN, propagating every other
failure. -/
def remoteDeleteStep (generator : Tunnel) (env : Env) (uuid : String) :
    List Effect × Except Error Unit :=
  match env.getOptCredentials with
  | Except.error err =>
    ([Effect.getCredentials generator.spec.credentials], Except.error (Error.kubeError err))
  | Except.ok none =>
    ([Effect.getCredentials generator.spec.credentials], Except.ok ())
  | Except.ok (some _) =>
    match env.deleteTunnel with
    | Except.ok _ =>
      ([Effect.getCredentials generator.spec.credentials, Effect.cfDeleteTunnel uuid],
        Except.ok ())
    | Except.error err =>
      match err with
      | ApiFailure.error status =>
        if status = NOT_FOUND ∨ status = FORBIDDEN then
          ([Effect.getCredentials generator.spec.credentials, Effect.cfDeleteTunnel uuid],
            Except.ok ())
        else
          ([Effect.getCredentials generator.spec.credentials, Effect.cfDeleteTunnel uuid],
            Except.error (Error.cloudflareApiFailure (ApiFailure.error status)))
      | ApiFailure.invalid =>
        ([Effect.getCredentials generator.spec.credentials, Effect.cfDeleteTunnel uuid],
          Except.error (Error.cloudflareApiFailure ApiFailure.invalid))

/-- Embeds `delete_tunnel` (tunnel_controller.rs lines 160-214): run the remote
delete block when spec.uuid is set; then delete the owned deployment, then
the owned secret; finally remove the finalizer and return await_change. Any
error aborts at its step. -/
def delete_tunnel (generator : Tunnel) (env : Env) (name ns : String) :
    List Effect × Except Error Action :=
  let remote :=
    match generator.spec.uuid with
    | some uuid => remoteDeleteStep generator env uuid
    | none => ([], Except.ok ())
  match remote.2 with
  | Except.error err => (remote.1, Except.error err)
  | Except.ok _ =>
    match deployment.delete env with
    | Except.error err =>
      (remote.1 ++ [Effect.deleteDeployment name ns], Except.error (Error.kubeError err))
    | Except.ok _ =>
      match secret.delete env with
      | Except.error err =>
        (remote.1 ++ [Effect.deleteDeployment name ns, Effect.deleteSecret name ns],
          Except.error (Error.kubeError err))
      | Except.ok _ =>
        match env.removeFinalizer with
        | Except.ok _ =>
          (remote.1 ++ [Effect.deleteDeployment name ns, Effect.deleteSecret name ns,
            Effect.removeFinalizer name ns], Except.ok Action.awaitChange)
        | Except.error err =>
          (remote.1 ++ [Effect.deleteDeployment name ns, Effect.deleteSecret name ns,
            Effect.removeFinalizer name ns], Except.error (Error.kubeError err))

/-- Embeds `reconciler` (tunnel_controller.rs lines 216-233): require a namespace,
then dispatch on the derived TunnelAction; Sync is a bare requeue at
RECONCILE_TIMER. `name_any` is embedded as the name field with "" default. -/
def reconciler (generator : Tunnel) (env : Env) : List Effect × Except Error Action :=
  match generator.metadata.ns with
  | none => ([], Except.error (Error.missingNamespace "Tunnel"))
  | some ns =>
    let name := generator.metadata.name.getD ""
    match TunnelAction.fromTunnel generator with
    | TunnelAction.create => create_tunnel generator env name ns
    | TunnelAction.delete => delete_tunnel generator env name ns
    | TunnelAction.sync => ([], Except.ok (Action.requeue RECONCILE_TIMER))

/-- Embeds `on_err` (tunnel_controller.rs lines 235-244): MissingCredentials
requeues after 120 seconds; every other error returns await_change. -/
def on_err (error : Error) : Action :=
  match error with
  | Error.missingCredentials _ => Action.requeue 120
  | _ => Action.awaitChange

/-- Embeds `const INGRESS_CONTROLLER` (crates/ingress-controller/src/controller.rs):
the identity string of this ingress controller. -/
def INGRESS_CONTROLLER : String := "cloudflare.ar2ro.io/ingress-controller"

/-- IngressClass parameters (k8s IngressClassParametersReference): apiGroup,
kind, name, namespace (`ns` here), scope. -/
structure IngressClassParameters where
  apiGroup : Option String
  kind : String
  name : String
  ns : Option String
  scope : Option String
deriving DecidableEq, Repr

/-- IngressClassSpec: the owning controller string and optional parameters. -/
structure IngressClassSpec where
  controller : Option String
  parameters : Option IngressClassParameters
deriving DecidableEq, Repr

/-- An IngressClass object: its name and optional spec. -/
structure IngressClass where
  name : String
  spec : Option IngressClassSpec
deriving DecidableEq, Repr

/-- IngressSpec restricted to the load-bearing field. -/
structure IngressSpec where
  ingressClassName : Option String
deriving DecidableEq, Repr

/-- An Ingress object: its name and optional spec. -/
structure Ingress where
  name : String
  spec : Option IngressSpec
deriving DecidableEq, Repr

/-- Embeds `IngressClassExt::controller_name` (controller.rs lines 155-161):
spec.controller, flattened through the optional spec. -/
def controller_name (c : IngressClass) : Option String :=
  c.spec.bind (fun s => s.controller)

/-- Embeds `IngressExt::ingress_class_name` (controller.rs lines 163-169):
spec.ingress_class_name, flattened through the optional spec. -/
def ingress_class_name (i : Ingress) : Option String :=
  i.spec.bind (fun s => s.ingressClassName)

/-- Embeds `StoreIngressClassExt::ingress_class_names` (controller.rs lines
136-148): the names of the stored IngressClass objects whose controller
string equals INGRESS_CONTROLLER. The store is embedded as the list of its
current objects. -/
def ingress_class_names (store : List IngressClass) : List String :=
  (store.filter (fun c =>
    match controller_name c with
    | some n => n = INGRESS_CONTROLLER
    | none => false)).map (fun c => c.name)

/-- The watch filter closure of `IngressController::start` (controller.rs
lines 191-204): an ingress passes only when it has a class name and that
name occurs in `ingress_class_names` of the class store. -/
def ingressWatchFilter (store : List IngressClass) (i : Ingress) : Bool :=
  match ingress_class_name i with
  | none => false
  | some n => (ingress_class_names store).contains n

/-- The class store's keyed lookup `Store::get(&ObjectRef::new(name))`:
IngressClass is cluster-scoped, so the key is the name. -/
def storeGet (store : List IngressClass) (n : String) : Option IngressClass :=
  store.find? (fun c => c.name = n)

/-- Tunnel CRD constants produced by the kube derive on the Tunnel custom
resource (src/src/crd/tunnel.rs): group "cloudflare.ar2ro.io", kind
"Tunnel", and — because the resource is declared `namespaced` — the
Kubernetes CRD scope string "Namespaced". -/
def tunnelCrdGroup : String := "cloudflare.ar2ro.io"

/-- Tunnel CRD kind string, from the kube derive on TunnelCrd. -/
def tunnelCrdKind : String := "Tunnel"

/-- Tunnel CRD scope string: a `namespaced` custom resource has scope
"Namespaced" in its CRD spec. -/
def tunnelCrdScope : String := "Namespaced"

/-- Ingress reconcile errors (controller.rs `enum Error`). The reason
string of InvalidIngressClassParameters elides the apostrophe of the source
text "parameters don't match Tunnel Crd spec". -/
inductive IngressError where
  | kubeError (e : KubeError)
  | missingDefaultTunnel
  | invalidIngressClassParameters (reason : String)
deriving DecidableEq, Repr

/-- The outcome of running code that may panic: either a Rust panic (an
`unwrap()` of None) or a plain result. -/
inductive RunResult (α : Type) where
  | panicked
  | result (r : Except IngressError α)
deriving DecidableEq, Repr

/-- The tail of the ingress `reconcile` (controller.rs lines 122-131) after
the Tunnel fetch: propagate a fetch error; then if spec.uuid is unset
requeue after 120 seconds, else requeue after 60 seconds. -/
def ingressReconcileAfterGet (fetch : Except KubeError Tunnel) : RunResult Action :=
  match fetch with
  | Except.error err => RunResult.result (Except.error (IngressError.kubeError err))
  | Except.ok tunnel =>
    match tunnel.spec.uuid with
    | none => RunResult.result (Except.ok (Action.requeue 120))
    | some _ => RunResult.result (Except.ok (Action.requeue 60))

/-- The ingress `reconcile` (controller.rs lines 71-132). Inputs: the
ingress, the class store and the outcome of the cluster get of the
referenced Tunnel. No class name or class not yet in the store returns
await_change. The class spec is read with `.unwrap()` — a spec-less class
panics. Absent parameters return MissingDefaultTunnel. With parameters,
scope defaults to "Cluster" and apiGroup to "cloudfare.ar2ro.io" (sic), and
the triple (group, kind, scope) must equal the Tunnel CRD constants or the
reconcile returns InvalidIngressClassParameters; on a match, a "Namespace"
scope reads `parameters.namespace` with `.unwrap()` — panicking when it is
absent — before fetching the Tunnel. -/
def ingressReconcile (ingress : Ingress) (store : List IngressClass)
    (fetch : Except KubeError Tunnel) : RunResult Action :=
  match ingress_class_name ingress with
  | none => RunResult.result (Except.ok Action.awaitChange)
  | some className =>
    match storeGet store className with
    | none => RunResult.result (Except.ok Action.awaitChange)
    | some ingressClass =>
      match ingressClass.spec with
      | none => RunResult.panicked
      | some spec =>
        match spec.parameters with
        | none => RunResult.result (Except.error IngressError.missingDefaultTunnel)
        | some parameters =>
          let scope := parameters.scope.getD "Cluster"
          let apiGroup := parameters.apiGroup.getD "cloudfare.ar2ro.io"
          if tunnelCrdGroup = apiGroup ∧ tunnelCrdKind = parameters.kind ∧
              tunnelCrdScope = scope then
            if scope = "Namespace" then
              match parameters.ns with
              | none => RunResult.panicked
              | some _ => ingressReconcileAfterGet fetch
            else ingressReconcileAfterGet fetch
          else
            RunResult.result (Except.error (IngressError.invalidIngressClassParameters
              "parameters do not match Tunnel Crd spec"))

/-! Concrete fixtures used by witnesses and counterexamples. -/

/-- The spec scenario tunnel: name t1, namespace ns1, credentials c1, no
uuid, no finalizers, not being deleted. -/
def t1 : Tunnel :=
  { metadata :=
      { name := some "t1"
        ns := some "ns1"
        deletionTimestamp := none
        finalizers := none }
    spec :=
      { uuid := none
        replicas := 1
        credentials := "c1"
        image := none
        tunnelSecret := none } }

/-- t1 after the remote id was persisted. -/
def t2 : Tunnel :=
  { t1 with spec := { t1.spec with uuid := some "abc123" } }

/-- A live tunnel carrying a foreign finalizer but not the lifecycle one. -/
def tSyncOther : Tunnel :=
  { t1 with
      metadata := { t1.metadata with finalizers := some ["example.com/other-finalizer"] } }

/-- A tunnel marked for deletion: deletionTimestamp set, uuid u1, lifecycle
finalizer present. -/
def tDel : Tunnel :=
  { metadata :=
      { name := some "t1"
        ns := some "ns1"
        deletionTimestamp := some "2026-10-12T00:00:00Z"
        finalizers := some [FINALIZER_NAME] }
    spec :=
      { uuid := some "u1"
        replicas := 1
        credentials := "c1"
        image := none
        tunnelSecret := none } }

/-- An environment in which every external call succeeds; the remote tunnel
id is abc123. -/
def envAllOk : Env :=
  { getOptCredentials := Except.ok (some ())
    getTunnel := Except.ok { id := "abc123" }
    createTunnel := Except.ok { id := "abc123" }
    patchUuid := Except.ok ()
    getTunnelToken := Except.ok "token"
    createSecret := Except.ok ()
    createDeployment := Except.ok ()
    addFinalizer := Except.ok ()
    deleteTunnel := Except.ok ()
    deleteDeploymentApi := Except.ok ()
    deleteSecretApi := Except.ok ()
    removeFinalizer := Except.ok () }

/-- All-ok environment except the remote delete returns HTTP 404. -/
def envDel404 : Env := { envAllOk with deleteTunnel := Except.error (ApiFailure.error 404) }

/-- All-ok environment except the cluster delete of the owned Deployment
returns a kube API error with code 404 (the deployment does not exist). -/
def envDep404 : Env := { envAllOk with deleteDeploymentApi := Except.error (KubeError.api 404) }

/-- All-ok environment except the cluster delete of the owned Deployment
returns a kube API error with code 403. -/
def envDep403 : Env := { envAllOk with deleteDeploymentApi := Except.error (KubeError.api 403) }

/-- All-ok environment except the cluster delete of the owned Secret returns
a kube API error with code 404. -/
def envSec404 : Env := { envAllOk with deleteSecretApi := Except.error (KubeError.api 404) }

/-- All-ok environment except the credentials object does not exist. -/
def envNoCreds : Env := { envAllOk with getOptCredentials := Except.ok none }

/-- An Ingress referencing the class cf-class. -/
def iRef : Ingress := { name := "web", spec := some { ingressClassName := some "cf-class" } }

/-- cf-class owned by a different controller. -/
def icOther : IngressClass :=
  { name := "cf-class"
    spec := some { controller := some "example.com/other-controller", parameters := none } }

/-- cf-class with no spec at all. -/
def icNoSpec : IngressClass := { name := "cf-class", spec := none }

/-- cf-class owned by this controller, parameters with scope Namespace but
no namespace field. -/
def icNsScope : IngressClass :=
  { name := "cf-class"
    spec :=
      some
        { controller := some INGRESS_CONTROLLER
          parameters :=
            some
              { apiGroup := some "cloudflare.ar2ro.io"
                kind := "Tunnel"
                name := "t1"
                ns := none
                scope := some "Namespace" } } }


/-! Helper lemmas shared by the claim theorems. -/

/-- The trace of the remote-delete block is the credentials lookup, possibly
followed by the remote delete call, and nothing else. -/
theorem remoteDeleteStep_trace (t : Tunnel) (env : Env) (u : String) :
    (remoteDeleteStep t env u).1 = [Effect.getCredentials t.spec.credentials] ∨
    (remoteDeleteStep t env u).1 =
      [Effect.getCredentials t.spec.credentials, Effect.cfDeleteTunnel u] := by
  unfold remoteDeleteStep
  rcases h : env.getOptCredentials with e | o
  · simp
  · rcases o with _ | _
    · simp
    · rcases hd : env.deleteTunnel with f | _
      · rcases f with s | _
        · by_cases hs : s = NOT_FOUND ∨ s = FORBIDDEN <;> simp [hs]
        · simp
      · simp

/-- If the finalizer-adding patch appears in the trace of the create tail,
it was already in the accumulated prefix, or both owned-resource creations
succeeded and the tail trace is exactly token fetch, secret create,
deployment create, finalizer add. -/
theorem rest_addFinalizer_cases (env : Env) (name ns : String) (eff : List Effect)
    (tun : TunnelInfo)
    (h : Effect.addFinalizer name ns ∈ (create_tunnel_rest env name ns eff tun).1) :
    Effect.addFinalizer name ns ∈ eff ∨
      (env.createSecret = Except.ok () ∧ env.createDeployment = Except.ok () ∧
        (create_tunnel_rest env name ns eff tun).1 =
          eff ++ [Effect.cfGetTunnelToken tun.id, Effect.createSecret name ns,
            Effect.createDeployment name ns, Effect.addFinalizer name ns]) := by
  unfold create_tunnel_rest at h ⊢
  rcases htok : env.getTunnelToken with e | tok <;> simp [htok] at h ⊢
  · exact h
  · rcases hsec : env.createSecret with e | _ <;> simp [hsec] at h ⊢
    · exact h
    · rcases hdep : env.createDeployment with e | _ <;> simp [hdep] at h ⊢
      · exact h
      · rcases hfin : env.addFinalizer with e | _ <;> simp [hfin] at h ⊢


/-! Claim theorems. -/

/-- C5 counterexample: a live tunnel whose finalizer list is non-empty but
does not contain the lifecycle finalizer is classified Sync by the code,
while the claimed three-state rule classifies it Create. -/
theorem tunnel_action_ignores_finalizer_identity :
    TunnelAction.fromTunnel tSyncOther = TunnelAction.sync ∧
    specTunnelAction tSyncOther = TunnelAction.create ∧
    TunnelAction.sync ≠ TunnelAction.create := by decide

/-- C5 amended: the action is Delete exactly when deletionTimestamp is
present; Create exactly when deletionTimestamp is absent and the finalizers
field is absent altogether; Sync exactly when deletionTimestamp is absent
and the finalizers field is present — the identity of the finalizers is
never inspected. -/
theorem tunnel_action_characterization (t : Tunnel) :
    (TunnelAction.fromTunnel t = TunnelAction.delete ↔
      t.metadata.deletionTimestamp.isSome) ∧
    (TunnelAction.fromTunnel t = TunnelAction.create ↔
      t.metadata.deletionTimestamp = none ∧ t.metadata.finalizers = none) ∧
    (TunnelAction.fromTunnel t = TunnelAction.sync ↔
      t.metadata.deletionTimestamp = none ∧ t.metadata.finalizers ≠ none) := by
  unfold TunnelAction.fromTunnel
  rcases t with ⟨⟨n, ns, dt, fin⟩, s⟩
  rcases dt with _ | _ <;> rcases fin with _ | _ <;> simp

/-- C7 counterexample: a cluster-API reconcile error is mapped to
await_change, which is not a timed requeue of any duration, refuting the
claim that every non-credentials error requeues at a short fixed interval. -/
theorem on_err_default_is_await_change :
    on_err (Error.kubeError KubeError.other) = Action.awaitChange ∧
    Action.awaitChange ≠ Action.requeue 30 ∧
    Action.awaitChange ≠ Action.requeue 60 := by decide

/-- C7 amended: the error policy requeues MissingCredentials after 120
seconds and maps every other reconcile error to await_change (no timer; the
object is reconsidered only on its next change). -/
theorem on_err_policy :
    (∀ s, on_err (Error.missingCredentials s) = Action.requeue 120) ∧
    (∀ e : Error, (∀ s, e ≠ Error.missingCredentials s) → on_err e = Action.awaitChange) := by
  constructor
  · intro s; rfl
  · intro e he
    rcases e with k | c | r | s
    · rfl
    · rfl
    · rfl
    · exact absurd rfl (he s)

/-- Witness for on_err_policy at concrete errors. -/
theorem on_err_policy_witness :
    on_err (Error.missingCredentials "c1") = Action.requeue 120 ∧
    on_err (Error.kubeError KubeError.other) = Action.awaitChange := by
  refine ⟨on_err_policy.1 "c1", on_err_policy.2 (Error.kubeError KubeError.other) ?_⟩
  intro s h
  cases h

/-- C6: the code propagates a not-found cluster delete instead of treating
it as success. Deleting the owned Deployment when the cluster API answers
404 returns the error (only codes 400-403 are swallowed; 403 is shown
swallowed for contrast), deleting the owned Secret propagates every error,
and a Delete reconcile hitting the 404 aborts before the finalizer-removal
patch is ever issued. -/
theorem owned_delete_notfound_propagates :
    deployment.delete envDep404 = Except.error (KubeError.api 404) ∧
    deployment.delete envDep403 = Except.ok () ∧
    secret.delete envSec404 = Except.error (KubeError.api 404) ∧
    delete_tunnel tDel envDep404 "t1" "ns1" =
      ([Effect.getCredentials "c1", Effect.cfDeleteTunnel "u1",
        Effect.deleteDeployment "t1" "ns1"],
        Except.error (Error.kubeError (KubeError.api 404))) ∧
    Effect.removeFinalizer "t1" "ns1" ∉ (delete_tunnel tDel envDep404 "t1" "ns1").1 := by
  decide

/-- C1 counterexample: for the spec scenario tunnel (uuid unset) with every
external call succeeding, the reconcile does not stop after the uuid patch:
the very same reconcile fetches the token, creates the owned secret and
deployment, adds the finalizer, and returns a 60-second requeue, not a
zero-delay one. -/
theorem create_does_not_stop_after_patch :
    create_tunnel t1 envAllOk "t1" "ns1" =
      ([Effect.getCredentials "c1", Effect.cfCreateTunnel "t1",
        Effect.patchTunnelUuid "abc123", Effect.cfGetTunnelToken "abc123",
        Effect.createSecret "t1" "ns1", Effect.createDeployment "t1" "ns1",
        Effect.addFinalizer "t1" "ns1"], Except.ok (Action.requeue 60)) ∧
    Effect.cfGetTunnelToken "abc123" ∈ (create_tunnel t1 envAllOk "t1" "ns1").1 ∧
    (create_tunnel t1 envAllOk "t1" "ns1").2 ≠ Except.ok (Action.requeue 0) := by
  decide

/-- C10 counterexample: an IngressClass owned by this controller whose
parameters have scope Namespace and no namespace field does not panic the
reconcile — the scope never matches the Tunnel CRD scope string Namespaced,
so the reconcile returns the InvalidIngressClassParameters error. -/
theorem ingress_namespace_scope_does_not_panic :
    ingressReconcile iRef [icNsScope] (Except.ok tDel) =
      RunResult.result (Except.error (IngressError.invalidIngressClassParameters
        "parameters do not match Tunnel Crd spec")) ∧
    ingressReconcile iRef [icNsScope] (Except.ok tDel) ≠
      (RunResult.panicked : RunResult Action) := by decide


/-- C1 amended: for a Create-state tunnel with uuid unset, once the remote
create and the uuid merge-patch succeed the reconcile continues in the same
pass — the call right after the patch is the token fetch — it never returns
a zero-delay requeue, and when the remaining steps also succeed it returns
the 60-second steady-state requeue. -/
theorem create_patch_then_continue (t : Tunnel) (env : Env) (name ns : String)
    (tun : TunnelInfo) (h1 : t.spec.uuid = none)
    (h2 : env.getOptCredentials = Except.ok (some ()))
    (h3 : env.createTunnel = Except.ok tun)
    (h4 : env.patchUuid = Except.ok ()) :
    (∃ rest, (create_tunnel t env name ns).1 =
      [Effect.getCredentials t.spec.credentials, Effect.cfCreateTunnel name,
        Effect.patchTunnelUuid tun.id, Effect.cfGetTunnelToken tun.id] ++ rest) ∧
    (create_tunnel t env name ns).2 ≠ Except.ok (Action.requeue 0) ∧
    (∀ tok, env.getTunnelToken = Except.ok tok → env.createSecret = Except.ok () →
      env.createDeployment = Except.ok () → env.addFinalizer = Except.ok () →
      (create_tunnel t env name ns).2 = Except.ok (Action.requeue RECONCILE_TIMER)) := by
  unfold create_tunnel create_tunnel_rest
  simp only [h1, h2, h3, h4]
  rcases htok : env.getTunnelToken with e | tok <;> simp [htok, RECONCILE_TIMER]
  rcases hsec : env.createSecret with e | _ <;> simp [hsec]
  rcases hdep : env.createDeployment with e | _ <;> simp [hdep]
  rcases hfin : env.addFinalizer with e | _ <;> simp [hfin]

/-- Witness for create_patch_then_continue at the spec scenario input. -/
theorem create_patch_then_continue_witness :
    (∃ rest, (create_tunnel t1 envAllOk "t1" "ns1").1 =
      [Effect.getCredentials t1.spec.credentials, Effect.cfCreateTunnel "t1",
        Effect.patchTunnelUuid "abc123", Effect.cfGetTunnelToken "abc123"] ++ rest) ∧
    (create_tunnel t1 envAllOk "t1" "ns1").2 ≠ Except.ok (Action.requeue 0) ∧
    (∀ tok, envAllOk.getTunnelToken = Except.ok tok → envAllOk.createSecret = Except.ok () →
      envAllOk.createDeployment = Except.ok () → envAllOk.addFinalizer = Except.ok () →
      (create_tunnel t1 envAllOk "t1" "ns1").2 = Except.ok (Action.requeue RECONCILE_TIMER)) :=
  create_patch_then_continue t1 envAllOk "t1" "ns1" { id := "abc123" }
    (by decide) (by decide) (by decide) (by decide)

/-- C4: a Create-state tunnel with uuid already set never triggers a remote
create under any environment; with the fetch, token, owned-resource and
finalizer calls succeeding, the trace is exactly get-tunnel, get-token,
secret create, deployment create, finalizer patch, and the result is the
60-second steady-state requeue. -/
theorem create_with_uuid_reuses_remote (t : Tunnel) (env env2 : Env)
    (name ns u : String) (tun : TunnelInfo) (tok : String)
    (h1 : t.spec.uuid = some u)
    (h2 : env.getOptCredentials = Except.ok (some ()))
    (h3 : env.getTunnel = Except.ok tun)
    (h4 : env.getTunnelToken = Except.ok tok)
    (h5 : env.createSecret = Except.ok ())
    (h6 : env.createDeployment = Except.ok ())
    (h7 : env.addFinalizer = Except.ok ()) :
    create_tunnel t env name ns =
      ([Effect.getCredentials t.spec.credentials, Effect.cfGetTunnel u,
        Effect.cfGetTunnelToken tun.id, Effect.createSecret name ns,
        Effect.createDeployment name ns, Effect.addFinalizer name ns],
        Except.ok (Action.requeue RECONCILE_TIMER)) ∧
    (∀ m, Effect.cfCreateTunnel m ∉ (create_tunnel t env2 name ns).1) := by
  constructor
  · unfold create_tunnel create_tunnel_rest
    simp [h1, h2, h3, h4, h5, h6, h7]
  · intro m
    unfold create_tunnel create_tunnel_rest
    rcases hc : env2.getOptCredentials with e | o
    · simp
    · rcases o with _ | _
      · simp
      · simp only [h1]
        rcases hg : env2.getTunnel with e | tun2
        · simp
        · rcases htok : env2.getTunnelToken with e | tok2 <;> simp [htok]
          rcases hsec : env2.createSecret with e | _ <;> simp [hsec]
          rcases hdep : env2.createDeployment with e | _ <;> simp [hdep]
          rcases hfin : env2.addFinalizer with e | _ <;> simp [hfin]

/-- Witness for create_with_uuid_reuses_remote at the persisted-id tunnel. -/
theorem create_with_uuid_reuses_remote_witness :
    create_tunnel t2 envAllOk "t1" "ns1" =
      ([Effect.getCredentials t2.spec.credentials, Effect.cfGetTunnel "abc123",
        Effect.cfGetTunnelToken "abc123", Effect.createSecret "t1" "ns1",
        Effect.createDeployment "t1" "ns1", Effect.addFinalizer "t1" "ns1"],
        Except.ok (Action.requeue RECONCILE_TIMER)) ∧
    (∀ m, Effect.cfCreateTunnel m ∉ (create_tunnel t2 envAllOk "t1" "ns1").1) :=
  create_with_uuid_reuses_remote t2 envAllOk envAllOk "t1" "ns1" "abc123"
    { id := "abc123" } "token" (by decide) (by decide) (by decide) (by decide)
    (by decide) (by decide) (by decide)


/-- C3: for a Delete-state tunnel with uuid set and resolvable credentials,
a remote delete failing with HTTP 404 or 403 is swallowed — the reconcile
goes on to delete both owned resources and remove the finalizer, returning
await_change — while a remote failure with any other status, or an
unparseable response, is propagated as the CloudflareApiFailure error with
nothing deleted locally. -/
theorem delete_swallows_notfound_forbidden (t : Tunnel) (env : Env)
    (name ns u : String)
    (h1 : t.spec.uuid = some u)
    (h2 : env.getOptCredentials = Except.ok (some ())) :
    (∀ status, env.deleteTunnel = Except.error (ApiFailure.error status) →
      (status = NOT_FOUND ∨ status = FORBIDDEN) →
      env.deleteDeploymentApi = Except.ok () → env.deleteSecretApi = Except.ok () →
      env.removeFinalizer = Except.ok () →
      delete_tunnel t env name ns =
        ([Effect.getCredentials t.spec.credentials, Effect.cfDeleteTunnel u,
          Effect.deleteDeployment name ns, Effect.deleteSecret name ns,
          Effect.removeFinalizer name ns], Except.ok Action.awaitChange)) ∧
    (∀ status, env.deleteTunnel = Except.error (ApiFailure.error status) →
      ¬(status = NOT_FOUND ∨ status = FORBIDDEN) →
      delete_tunnel t env name ns =
        ([Effect.getCredentials t.spec.credentials, Effect.cfDeleteTunnel u],
          Except.error (Error.cloudflareApiFailure (ApiFailure.error status)))) ∧
    (env.deleteTunnel = Except.error ApiFailure.invalid →
      delete_tunnel t env name ns =
        ([Effect.getCredentials t.spec.credentials, Effect.cfDeleteTunnel u],
          Except.error (Error.cloudflareApiFailure ApiFailure.invalid))) := by
  refine ⟨?_, ?_, ?_⟩
  · intro status hd hs hdep hsec hfin
    unfold delete_tunnel remoteDeleteStep deployment.delete secret.delete
    simp [h1, h2, hd, hs, hdep, hsec, hfin]
  · intro status hd hs
    unfold delete_tunnel remoteDeleteStep
    simp [h1, h2, hd, hs]
  · intro hd
    unfold delete_tunnel remoteDeleteStep
    simp [h1, h2, hd]

/-- Witness for delete_swallows_notfound_forbidden: the 404 scenario of the
spec, with every cluster call succeeding. -/
theorem delete_swallows_notfound_forbidden_witness :
    delete_tunnel tDel envDel404 "t1" "ns1" =
      ([Effect.getCredentials tDel.spec.credentials, Effect.cfDeleteTunnel "u1",
        Effect.deleteDeployment "t1" "ns1", Effect.deleteSecret "t1" "ns1",
        Effect.removeFinalizer "t1" "ns1"], Except.ok Action.awaitChange) :=
  (delete_swallows_notfound_forbidden tDel envDel404 "t1" "ns1" "u1"
    (by decide) (by decide)).1 404 (by decide) (by decide) (by decide) (by decide)
    (by decide)

/-- C9: for a Delete-state tunnel with uuid set whose credentials object no
longer exists, the remote delete is silently skipped — no remote delete call
appears in the trace and no MissingCredentials error is ever produced — and
when the owned-resource deletions and the finalizer patch succeed the
reconcile finishes with await_change. -/
theorem delete_missing_credentials_skips_remote (t : Tunnel) (env : Env)
    (name ns u : String)
    (h1 : t.spec.uuid = some u)
    (h2 : env.getOptCredentials = Except.ok none) :
    (∀ v, Effect.cfDeleteTunnel v ∉ (delete_tunnel t env name ns).1) ∧
    (∀ s, (delete_tunnel t env name ns).2 ≠
      Except.error (Error.missingCredentials s)) ∧
    (env.deleteDeploymentApi = Except.ok () → env.deleteSecretApi = Except.ok () →
      env.removeFinalizer = Except.ok () →
      delete_tunnel t env name ns =
        ([Effect.getCredentials t.spec.credentials, Effect.deleteDeployment name ns,
          Effect.deleteSecret name ns, Effect.removeFinalizer name ns],
          Except.ok Action.awaitChange)) := by
  unfold delete_tunnel remoteDeleteStep deployment.delete secret.delete
  simp only [h1, h2]
  refine ⟨?_, ?_, ?_⟩
  · intro v
    rcases hdep : env.deleteDeploymentApi with e | _
    · rcases e with code | _
      · by_cases hc : 400 ≤ code ∧ code ≤ 403 <;> simp [hc] <;>
          rcases hsec : env.deleteSecretApi with e | _ <;> simp <;>
          rcases hfin : env.removeFinalizer with e | _ <;> simp
      · simp
    · simp
      rcases hsec : env.deleteSecretApi with e | _ <;> simp
      rcases hfin : env.removeFinalizer with e | _ <;> simp
  · intro s
    rcases hdep : env.deleteDeploymentApi with e | _
    · rcases e with code | _
      · by_cases hc : 400 ≤ code ∧ code ≤ 403 <;> simp [hc] <;>
          rcases hsec : env.deleteSecretApi with e | _ <;> simp <;>
          rcases hfin : env.removeFinalizer with e | _ <;> simp
      · simp
    · simp
      rcases hsec : env.deleteSecretApi with e | _ <;> simp
      rcases hfin : env.removeFinalizer with e | _ <;> simp
  · intro hdep hsec hfin
    simp [hdep, hsec, hfin]

/-- Witness for delete_missing_credentials_skips_remote with all cluster
calls succeeding. -/
theorem delete_missing_credentials_skips_remote_witness :
    (∀ v, Effect.cfDeleteTunnel v ∉ (delete_tunnel tDel envNoCreds "t1" "ns1").1) ∧
    delete_tunnel tDel envNoCreds "t1" "ns1" =
      ([Effect.getCredentials tDel.spec.credentials, Effect.deleteDeployment "t1" "ns1",
        Effect.deleteSecret "t1" "ns1", Effect.removeFinalizer "t1" "ns1"],
        Except.ok Action.awaitChange) := by
  have h := delete_missing_credentials_skips_remote tDel envNoCreds "t1" "ns1" "u1"
    (by decide) (by decide)
  exact ⟨h.1, h.2.2 (by decide) (by decide) (by decide)⟩


/-- C2: the finalizer-removal patch of a Delete reconcile is issued only
after the remote-delete step and both owned-resource deletions succeeded,
and then as the very last call; the finalizer-adding patch of a Create
reconcile is issued only after the owned secret and deployment were created
successfully, and then as the very last call. -/
theorem finalizer_ordering (t : Tunnel) (env : Env) (name ns : String) :
    (Effect.removeFinalizer name ns ∈ (delete_tunnel t env name ns).1 →
      deployment.delete env = Except.ok () ∧ secret.delete env = Except.ok () ∧
      (match t.spec.uuid with
        | some u => (remoteDeleteStep t env u).2 = Except.ok ()
        | none => True) ∧
      (∃ p, (delete_tunnel t env name ns).1 = p ++ [Effect.removeFinalizer name ns])) ∧
    (Effect.addFinalizer name ns ∈ (create_tunnel t env name ns).1 →
      env.createSecret = Except.ok () ∧ env.createDeployment = Except.ok () ∧
      (∃ p, (create_tunnel t env name ns).1 = p ++ [Effect.addFinalizer name ns])) := by
  constructor
  · intro hmem
    rcases hu : t.spec.uuid with _ | u <;>
      unfold delete_tunnel at hmem ⊢ <;> simp only [hu] at hmem ⊢
    · rcases hdd : deployment.delete env with e | _
      · simp [hdd] at hmem
      · rcases hsd : secret.delete env with e | _
        · simp [hdd, hsd] at hmem
        · rcases hrf : env.removeFinalizer with e | _ <;>
            simp [hdd, hsd, hrf] <;>
            exact ⟨[Effect.deleteDeployment name ns, Effect.deleteSecret name ns], rfl⟩
    · rcases hr2 : (remoteDeleteStep t env u).2 with e | _
      · simp only [hr2] at hmem
        rcases remoteDeleteStep_trace t env u with htr | htr <;> simp [htr] at hmem
      · rcases hdd : deployment.delete env with e | _
        · simp [hr2, hdd] at hmem
          rcases remoteDeleteStep_trace t env u with htr | htr <;> simp [htr] at hmem
        · rcases hsd : secret.delete env with e | _
          · simp [hr2, hdd, hsd] at hmem
            rcases remoteDeleteStep_trace t env u with htr | htr <;> simp [htr] at hmem
          · rcases hrf : env.removeFinalizer with e | _ <;>
              simp [hr2, hdd, hsd, hrf] <;>
              exact ⟨(remoteDeleteStep t env u).1 ++
                [Effect.deleteDeployment name ns, Effect.deleteSecret name ns], by
                  simp⟩
  · intro hmem
    unfold create_tunnel at hmem ⊢
    rcases hc : env.getOptCredentials with e | o
    · simp [hc] at hmem
    · rcases o with _ | _
      · simp [hc] at hmem
      · simp only [hc] at hmem ⊢
        rcases hu : t.spec.uuid with _ | u <;> simp only [hu] at hmem ⊢
        · rcases hct : env.createTunnel with e | tun
          · simp [hct] at hmem
          · rcases hp : env.patchUuid with e | _
            · simp [hct, hp] at hmem
            · simp only [hct, hp] at hmem ⊢
              rcases rest_addFinalizer_cases env name ns _ tun hmem with hin | ⟨hs, hd, htr⟩
              · simp at hin
              · exact ⟨hs, hd,
                  [Effect.getCredentials t.spec.credentials, Effect.cfCreateTunnel name,
                    Effect.patchTunnelUuid tun.id, Effect.cfGetTunnelToken tun.id,
                    Effect.createSecret name ns, Effect.createDeployment name ns],
                  by rw [htr]; simp⟩
        · rcases hgt : env.getTunnel with e | tun
          · simp [hgt] at hmem
          · simp only [hgt] at hmem ⊢
            rcases rest_addFinalizer_cases env name ns _ tun hmem with hin | ⟨hs, hd, htr⟩
            · simp at hin
            · exact ⟨hs, hd,
                [Effect.getCredentials t.spec.credentials, Effect.cfGetTunnel u,
                  Effect.cfGetTunnelToken tun.id, Effect.createSecret name ns,
                  Effect.createDeployment name ns],
                by rw [htr]; simp⟩

/-- Witness for finalizer_ordering: both directions at concrete inputs with
all calls succeeding. -/
theorem finalizer_ordering_witness :
    (deployment.delete envAllOk = Except.ok () ∧ secret.delete envAllOk = Except.ok () ∧
      (match tDel.spec.uuid with
        | some u => (remoteDeleteStep tDel envAllOk u).2 = Except.ok ()
        | none => True) ∧
      (∃ p, (delete_tunnel tDel envAllOk "t1" "ns1").1 =
        p ++ [Effect.removeFinalizer "t1" "ns1"])) ∧
    (envAllOk.createSecret = Except.ok () ∧ envAllOk.createDeployment = Except.ok () ∧
      (∃ p, (create_tunnel t1 envAllOk "t1" "ns1").1 =
        p ++ [Effect.addFinalizer "t1" "ns1"])) :=
  ⟨(finalizer_ordering tDel envAllOk "t1" "ns1").1 (by decide),
   (finalizer_ordering t1 envAllOk "t1" "ns1").2 (by decide)⟩


/-- C8: with distinct class names in the store, an ingress whose referenced
class is owned by a different controller is rejected by the watch filter:
the filter admits an ingress only when its class name is among the names of
classes whose controller field equals this controller identity. -/
theorem not_owned_class_never_admitted (store : List IngressClass) (i : Ingress)
    (c : IngressClass) (hnodup : (store.map (fun x => x.name)).Nodup)
    (hc : c ∈ store) (href : ingress_class_name i = some c.name)
    (hctrl : controller_name c ≠ some INGRESS_CONTROLLER) :
    ingressWatchFilter store i = false := by
  unfold ingressWatchFilter
  rw [href]
  suffices h : c.name ∉ ingress_class_names store by
    simpa using h
  intro hmemb
  unfold ingress_class_names at hmemb
  simp only [List.mem_map] at hmemb
  obtain ⟨c2, hc2, hname⟩ := hmemb
  rw [List.mem_filter] at hc2
  obtain ⟨hc2mem, hpred⟩ := hc2
  have heq : c2 = c := List.inj_on_of_nodup_map hnodup hc2mem hc hname
  subst heq
  rcases hcn : controller_name c2 with _ | n
  · rw [hcn] at hpred
    simp at hpred
  · rw [hcn] at hpred
    simp at hpred
    exact hctrl (by rw [hcn, hpred])

/-- Witness for not_owned_class_never_admitted: a store holding one class
owned by another controller, referenced by the ingress. -/
theorem not_owned_class_never_admitted_witness :
    ingressWatchFilter [icOther] iRef = false :=
  not_owned_class_never_admitted [icOther] iRef icOther (by decide) (by decide)
    (by decide) (by decide)

/-- C10 amended: the ingress reconcile panics (unwrap of None) whenever the
resolved class has no spec; a class whose parameters carry scope Namespace
— with or without a namespace — never reaches the namespace unwrap, because
the scope comparison against the Tunnel CRD scope Namespaced fails first and
the reconcile returns InvalidIngressClassParameters. -/
theorem ingress_reconcile_partiality (i : Ingress) (store : List IngressClass)
    (fetch : Except KubeError Tunnel) (cn : String) (c : IngressClass) :
    (ingress_class_name i = some cn → storeGet store cn = some c → c.spec = none →
      ingressReconcile i store fetch = RunResult.panicked) ∧
    (∀ spec params, ingress_class_name i = some cn → storeGet store cn = some c →
      c.spec = some spec → spec.parameters = some params →
      params.scope = some "Namespace" →
      ingressReconcile i store fetch =
        RunResult.result (Except.error (IngressError.invalidIngressClassParameters
          "parameters do not match Tunnel Crd spec"))) := by
  constructor
  · intro h1 h2 h3
    unfold ingressReconcile
    simp [h1, h2, h3]
  · intro spec params h1 h2 h3 h4 h5
    unfold ingressReconcile
    simp [h1, h2, h3, h4, h5, tunnelCrdScope]

/-- Witness for ingress_reconcile_partiality: the spec-less class panics and
the Namespace-scope class yields the invalid-parameters error. -/
theorem ingress_reconcile_partiality_witness :
    ingressReconcile iRef [icNoSpec] (Except.ok tDel) = RunResult.panicked ∧
    ingressReconcile iRef [icNsScope] (Except.ok tDel) =
      RunResult.result (Except.error (IngressError.invalidIngressClassParameters
        "parameters do not match Tunnel Crd spec")) :=
  ⟨(ingress_reconcile_partiality iRef [icNoSpec] (Except.ok tDel) "cf-class"
      icNoSpec).1 (by decide) (by decide) (by decide),
   (ingress_reconcile_partiality iRef [icNsScope] (Except.ok tDel) "cf-class"
      icNsScope).2 (icNsScope.spec.getD { controller := none, parameters := none })
      ((icNsScope.spec.getD { controller := none, parameters := none }).parameters.getD
        { apiGroup := none, kind := "", name := "", ns := none, scope := none })
      (by decide) (by decide) (by decide) (by decide) (by decide)⟩

end CfOp
